import Mathlib

/-!
Verification of the existence-filter mismatch diagnostic utilities of the
firebase-js-sdk repository (`captureExistenceFilterMismatches` and the
internal-to-public mismatch record translation), as a shallow embedding.

The translation function `createExistenceFilterMismatchInfoFrom` and the
capture façade `captureExistenceFilterMismatches` are embedded directly from
the TypeScript source.  The hook registry (`TestingHooks`) is not part of the
shown source — only its caller is — so it is modelled from the specification
(see the doc comments marked `Modelled from the spec:`).
-/

/-- Embedded from the source: a document reference, reduced to the one field
the shown code reads, its relative `path` string. -/
structure DocumentReference where
  path : String
deriving Repr

/-- Embedded from the source interface `ExistenceFilterMismatchInfoInternal`:
the optional `bloomFilter` descriptor of an internal mismatch record.  The
optional TypeScript member `mightContain?: (value: string) => boolean` becomes
an `Option` of a Lean function. -/
structure BloomFilterDescriptorInternal where
  applied : Bool
  hashCount : Int
  bitmapLength : Int
  padding : Int
  mightContain : Option (String → Bool)

/-- Embedded from the source interface `ExistenceFilterMismatchInfoInternal`:
the internal mismatch record published by the synchronization engine. -/
structure ExistenceFilterMismatchInfoInternal where
  localCacheCount : Int
  existenceFilterCount : Int
  projectId : String
  databaseId : String
  bloomFilter : Option BloomFilterDescriptorInternal

/-- Embedded from the source interface `ExistenceFilterMismatchInfo`: the
public bloom filter shape, whose `mightContain` takes a `DocumentReference`
and is total (never optional). -/
structure BloomFilterPublic where
  applied : Bool
  hashCount : Int
  bitmapLength : Int
  padding : Int
  mightContain : DocumentReference → Bool

/-- Embedded from the source interface `ExistenceFilterMismatchInfo`: the
public mismatch record.  Its only fields are `localCacheCount`,
`existenceFilterCount` and the optional `bloomFilter`; there is no
`projectId` or `databaseId` field. -/
structure ExistenceFilterMismatchInfo where
  localCacheCount : Int
  existenceFilterCount : Int
  bloomFilter : Option BloomFilterPublic

/-- Embedded from the source function `createExistenceFilterMismatchInfoFrom`:
copies the two counts, and when the internal `bloomFilter` descriptor is
present, copies its four metadata fields and rebinds `mightContain` to take a
`DocumentReference`, building the fully-qualified key by the source's
concatenation and delegating to the internal predicate; the absent internal
predicate case yields `false` (the TypeScript `?.` call with `?? false`). -/
def createExistenceFilterMismatchInfoFrom
    (internalInfo : ExistenceFilterMismatchInfoInternal) :
    ExistenceFilterMismatchInfo :=
  let info : ExistenceFilterMismatchInfo :=
    { localCacheCount := internalInfo.localCacheCount
      existenceFilterCount := internalInfo.existenceFilterCount
      bloomFilter := none }
  match internalInfo.bloomFilter with
  | none => info
  | some internalBloomFilter =>
    { info with
        bloomFilter := some
          { applied := internalBloomFilter.applied
            hashCount := internalBloomFilter.hashCount
            bitmapLength := internalBloomFilter.bitmapLength
            padding := internalBloomFilter.padding
            mightContain := fun documentRef =>
              match internalBloomFilter.mightContain with
              | some m =>
                  m (("projects/" ++ internalInfo.projectId) ++
                     ("/databases/" ++ internalInfo.databaseId) ++
                     ("/documents/" ++ documentRef.path))
              | none => false } }

/-- Modelled from the spec: the `TestingHooks` registry singleton is not part
of the shown source (only its caller is).  Per the spec it holds an ordered
subscriber list; register appends and returns an unregister handle, publish
invokes every currently-registered callback in registration order.  Since
every subscriber in this program is a capture-façade callback that appends
the translated record to its own accumulator, each subscriber is modelled as
its accumulator: a `(handle id, accumulated public records)` pair. -/
structure TestingHooks where
  nextId : Nat
  subs : List (Nat × List ExistenceFilterMismatchInfo)

/-- Modelled from the spec: the registry's lazy initial state, with an empty
subscriber list. -/
def TestingHooks.initial : TestingHooks := ⟨0, []⟩

/-- Modelled from the spec: `register` appends a fresh subscriber entry (a
fresh handle id with an empty accumulator) to the ordered list and returns
the handle id. -/
def onExistenceFilterMismatch (s : TestingHooks) : Nat × TestingHooks :=
  (s.nextId, ⟨s.nextId + 1, s.subs ++ [(s.nextId, [])]⟩)

/-- Modelled from the spec: invoking the unregister handle removes the
corresponding entry if still present and is a safe no-op otherwise. -/
def unregister (id : Nat) (s : TestingHooks) : TestingHooks :=
  ⟨s.nextId, s.subs.filter (fun p => p.1 ≠ id)⟩

/-- Modelled from the spec: `publish` invokes every currently-registered
callback in registration order with the internal record; each façade callback
appends the translated public record to its own accumulator. -/
def notifyOnExistenceFilterMismatch (info : ExistenceFilterMismatchInfoInternal)
    (s : TestingHooks) : TestingHooks :=
  ⟨s.nextId,
   s.subs.map (fun p => (p.1, p.2 ++ [createExistenceFilterMismatchInfoFrom info]))⟩

/-- Well-formedness of a registry state: every registered handle id is below
the fresh-id counter, so a newly registered handle is distinct from all
existing ones. -/
def TestingHooks.Wf (s : TestingHooks) : Prop :=
  ∀ p ∈ s.subs, p.1 < s.nextId

/-- Shape of the result of a capture: on success the accumulated records are
paired with the callback's value, on failure the original error is propagated
and the records are discarded. -/
def captureOutcome {ε α : Type} (records : List ExistenceFilterMismatchInfo) :
    Except ε α → Except ε (List ExistenceFilterMismatchInfo × α)
  | Except.ok v => Except.ok (records, v)
  | Except.error e => Except.error e

/-- Embedded from the source function `captureExistenceFilterMismatches`.
The asynchronous callback is modelled by its observable interaction trace:
the ordered list of internal records it publishes during its execution
together with its outcome (`Except.ok` result or `Except.error`).  The façade
registers a fresh accumulator subscriber, runs the callback (each publish is
broadcast through the registry), reads back the accumulator, unregisters on
every path (the source's `finally`), and pairs the records with the outcome. -/
def captureExistenceFilterMismatches {ε α : Type}
    (callback : List ExistenceFilterMismatchInfoInternal × Except ε α)
    (hooks : TestingHooks) :
    TestingHooks × Except ε (List ExistenceFilterMismatchInfo × α) :=
  let reg := onExistenceFilterMismatch hooks
  let afterWork :=
    callback.1.foldl (fun h info => notifyOnExistenceFilterMismatch info h) reg.2
  let results := (afterWork.subs.lookup reg.1).getD []
  (unregister reg.1 afterWork, captureOutcome results callback.2)

/-- Interleaved execution events for reasoning about concurrent captures and
the capture window, under the spec's single-threaded cooperative scheduling:
`beginC cid` is a façade invocation registering its subscriber under handle
`cid`, `pub info` is a publish through the registry, and `endC cid outcome`
is that invocation's callback finishing with `outcome`, upon which the façade
reads its accumulator, unregisters, and returns. -/
inductive TraceEvent (ε α : Type) where
  | beginC (cid : Nat)
  | pub (info : ExistenceFilterMismatchInfoInternal)
  | endC (cid : Nat) (outcome : Except ε α)

/-- Execution state for an interleaved trace: the registry state plus, for
each finished capture invocation, the value it returned to its caller. -/
structure ExecState (ε α : Type) where
  hooks : TestingHooks
  finished : List (Nat × Except ε (List ExistenceFilterMismatchInfo × α))

/-- Single step of an interleaved trace, following the source façade: a begin
registers the subscriber entry, a publish broadcasts through the registry,
and an end reads the accumulator, unregisters, and records the returned
value. -/
def stepEvent {ε α : Type} : TraceEvent ε α → ExecState ε α → ExecState ε α
  | TraceEvent.beginC cid, st =>
      { st with hooks := ⟨st.hooks.nextId, st.hooks.subs ++ [(cid, [])]⟩ }
  | TraceEvent.pub info, st =>
      { st with hooks := notifyOnExistenceFilterMismatch info st.hooks }
  | TraceEvent.endC cid outcome, st =>
      { hooks := unregister cid st.hooks
        finished := st.finished ++
          [(cid, captureOutcome ((st.hooks.subs.lookup cid).getD []) outcome)] }

/-- Runs an interleaved trace of capture and publish events from a starting
execution state. -/
def runTrace {ε α : Type} (events : List (TraceEvent ε α)) (st : ExecState ε α) :
    ExecState ε α :=
  events.foldl (fun st e => stepEvent e st) st

/-- Number of records a finished capture returned to its caller (zero on the
failure path, where the records are discarded with the error). -/
def capturedCount {ε α : Type} :
    Except ε (List ExistenceFilterMismatchInfo × α) → Nat
  | Except.ok rv => rv.1.length
  | Except.error _ => 0

/-- Concrete internal record with no bloom filter, used as a sample publish
payload. -/
def noBloomInfo : ExistenceFilterMismatchInfoInternal :=
  { localCacheCount := 1
    existenceFilterCount := 2
    projectId := "p"
    databaseId := "d"
    bloomFilter := none }

/-- Concrete fully-qualified key recognized by the sample internal predicate
of spec scenario P5. -/
def p5Key : String := "projects/proj1/databases/(default)/documents/col/doc1"

/-- Concrete internal predicate of spec scenario P5: true only for the exact
key `p5Key`. -/
def p5Pred : String → Bool := fun s => s == p5Key

/-- Concrete internal bloom filter descriptor carrying the P5 predicate. -/
def p5Bloom : BloomFilterDescriptorInternal :=
  { applied := true
    hashCount := 3
    bitmapLength := 64
    padding := 2
    mightContain := some p5Pred }

/-- Concrete internal mismatch record of spec scenario P5. -/
def p5Info : ExistenceFilterMismatchInfoInternal :=
  { localCacheCount := 5
    existenceFilterCount := 6
    projectId := "proj1"
    databaseId := "(default)"
    bloomFilter := some p5Bloom }

/-- Concrete document reference with path `col/doc1`. -/
def doc1Ref : DocumentReference := { path := "col/doc1" }

/-- Concrete document reference with path `col/doc2`. -/
def doc2Ref : DocumentReference := { path := "col/doc2" }

/-- Concrete internal bloom filter descriptor with `applied` set but no
internal predicate, as in spec scenario P6. -/
def absentPredBloom : BloomFilterDescriptorInternal :=
  { applied := true
    hashCount := 3
    bitmapLength := 64
    padding := 2
    mightContain := none }

/-- Concrete internal mismatch record whose descriptor is present but whose
internal predicate is absent. -/
def absentPredInfo : ExistenceFilterMismatchInfoInternal :=
  { localCacheCount := 5
    existenceFilterCount := 6
    projectId := "proj1"
    databaseId := "(default)"
    bloomFilter := some absentPredBloom }

/-- Projection of a public mismatch record onto all of its non-function
fields: the two counts and, when the bloom filter is present, its four
metadata fields. -/
def publicShape (info : ExistenceFilterMismatchInfo) :
    Int × Int × Option (Bool × Int × Int × Int) :=
  (info.localCacheCount, info.existenceFilterCount,
   info.bloomFilter.map (fun b => (b.applied, b.hashCount, b.bitmapLength, b.padding)))

/-- C3: for every internal mismatch record with a present internal predicate
`m`, the translated public `mightContain` applied to a document reference
returns exactly `m` applied to the concatenation
`projects/ + projectId + /databases/ + databaseId + /documents/ + ref.path`. -/
theorem translated_mightContain_delegates_to_internal
    (info : ExistenceFilterMismatchInfoInternal) (bf : BloomFilterDescriptorInternal)
    (m : String → Bool) (ref : DocumentReference)
    (hbf : info.bloomFilter = some bf) (hm : bf.mightContain = some m) :
    (createExistenceFilterMismatchInfoFrom info).bloomFilter.map
        (fun b => b.mightContain ref)
      = some (m (("projects/" ++ info.projectId) ++
                 ("/databases/" ++ info.databaseId) ++
                 ("/documents/" ++ ref.path))) := by
  simp [createExistenceFilterMismatchInfoFrom, hbf, hm]

/-- Witness for C3, spec scenario P5: with `projectId = proj1`,
`databaseId = (default)` and an internal predicate true only for the exact
key, the translated predicate answers `true` on path `col/doc1` and `false`
on path `col/doc2`. -/
theorem translated_mightContain_delegates_witness :
    (createExistenceFilterMismatchInfoFrom p5Info).bloomFilter.map
        (fun b => b.mightContain doc1Ref) = some true
    ∧ (createExistenceFilterMismatchInfoFrom p5Info).bloomFilter.map
        (fun b => b.mightContain doc2Ref) = some false := by
  have h1 := translated_mightContain_delegates_to_internal p5Info p5Bloom p5Pred
    doc1Ref rfl rfl
  have h2 := translated_mightContain_delegates_to_internal p5Info p5Bloom p5Pred
    doc2Ref rfl rfl
  rw [h1, h2]
  exact ⟨by decide, by decide⟩

/-- C4: for every internal mismatch record whose bloom filter descriptor is
present but whose internal predicate is absent, the translated public
`mightContain` returns `false` for every document reference (it is a total
Lean function, so it cannot fail). -/
theorem translated_mightContain_absent_predicate_false
    (info : ExistenceFilterMismatchInfoInternal) (bf : BloomFilterDescriptorInternal)
    (ref : DocumentReference)
    (hbf : info.bloomFilter = some bf) (hm : bf.mightContain = none) :
    (createExistenceFilterMismatchInfoFrom info).bloomFilter.map
        (fun b => b.mightContain ref)
      = some false := by
  simp [createExistenceFilterMismatchInfoFrom, hbf, hm]

/-- Witness for C4, spec scenario P6: a descriptor with `applied = true` and
no internal predicate yields a translated predicate returning `false`. -/
theorem translated_mightContain_absent_predicate_witness :
    (createExistenceFilterMismatchInfoFrom absentPredInfo).bloomFilter.map
        (fun b => b.mightContain doc1Ref) = some false :=
  translated_mightContain_absent_predicate_false absentPredInfo absentPredBloom
    doc1Ref rfl rfl

/-- C6: the translated public record exposes no `projectId` or `databaseId`
field — the public structure (embedded from the source interface) has no such
fields, and every non-function field of the translation is independent of the
two identifiers, which therefore can only be used inside the rebound
`mightContain` path reconstruction. -/
theorem translation_drops_project_and_database_ids
    (info : ExistenceFilterMismatchInfoInternal) (p d : String) :
    publicShape (createExistenceFilterMismatchInfoFrom
        { info with projectId := p, databaseId := d })
      = publicShape (createExistenceFilterMismatchInfoFrom info) := by
  cases h : info.bloomFilter <;>
    simp [createExistenceFilterMismatchInfoFrom, publicShape, h]

/-- C7: for every internal mismatch record with a present bloom filter
descriptor, the translation copies `applied`, `hashCount`, `bitmapLength` and
`padding` unchanged into the public descriptor, and copies `localCacheCount`
and `existenceFilterCount` unchanged into the public record. -/
theorem translation_passes_descriptor_fields_unchanged
    (info : ExistenceFilterMismatchInfoInternal) (bf : BloomFilterDescriptorInternal)
    (hbf : info.bloomFilter = some bf) :
    (createExistenceFilterMismatchInfoFrom info).localCacheCount
        = info.localCacheCount
    ∧ (createExistenceFilterMismatchInfoFrom info).existenceFilterCount
        = info.existenceFilterCount
    ∧ (createExistenceFilterMismatchInfoFrom info).bloomFilter.map
          (fun b => (b.applied, b.hashCount, b.bitmapLength, b.padding))
        = some (bf.applied, bf.hashCount, bf.bitmapLength, bf.padding) := by
  simp [createExistenceFilterMismatchInfoFrom, hbf]

/-- Witness for C7, the concrete scenario of spec section 8: the translated
record keeps `localCacheCount = 5`, `existenceFilterCount = 6` and the
descriptor metadata `(true, 3, 64, 2)`. -/
theorem translation_passes_descriptor_fields_witness :
    (createExistenceFilterMismatchInfoFrom p5Info).localCacheCount = 5
    ∧ (createExistenceFilterMismatchInfoFrom p5Info).existenceFilterCount = 6
    ∧ (createExistenceFilterMismatchInfoFrom p5Info).bloomFilter.map
          (fun b => (b.applied, b.hashCount, b.bitmapLength, b.padding))
        = some (true, 3, 64, 2) :=
  translation_passes_descriptor_fields_unchanged p5Info p5Bloom rfl

/-- C10: the translated record has a bloom filter exactly when the internal
record does; the translation is a total Lean function, so constructing the
record cannot fail for any internal record shape. -/
theorem translation_bloomFilter_presence_iff
    (info : ExistenceFilterMismatchInfoInternal) :
    (createExistenceFilterMismatchInfoFrom info).bloomFilter.isSome
      = info.bloomFilter.isSome := by
  cases h : info.bloomFilter <;>
    simp [createExistenceFilterMismatchInfoFrom, h]

/-- Folding a sequence of publishes over a registry state appends the
translated records, in order, to every registered accumulator, and leaves the
fresh-id counter unchanged. -/
theorem notify_foldl (l : List ExistenceFilterMismatchInfoInternal)
    (h0 : TestingHooks) :
    l.foldl (fun h info => notifyOnExistenceFilterMismatch info h) h0
      = ⟨h0.nextId,
         h0.subs.map (fun p =>
           (p.1, p.2 ++ l.map createExistenceFilterMismatchInfoFrom))⟩ := by
  induction l generalizing h0 with
  | nil => simp
  | cons info t ih =>
      rw [List.foldl_cons, ih]
      simp only [notifyOnExistenceFilterMismatch, List.map_map, List.map_cons]
      congr 1
      congr 1
      funext p
      simp [Function.comp, List.append_assoc]

/-- Looking up a key in an appended association list skips a prefix whose
keys all differ from the key. -/
theorem lookup_append_of_forall_ne {β : Type} (n : Nat)
    (l1 l2 : List (Nat × β)) (h : ∀ p ∈ l1, p.1 ≠ n) :
    (l1 ++ l2).lookup n = l2.lookup n := by
  induction l1 with
  | nil => simp
  | cons q t ih =>
      obtain ⟨a, b⟩ := q
      have ha : a ≠ n := h (a, b) (List.mem_cons_self (a, b) t)
      have ht : ∀ p ∈ t, p.1 ≠ n := fun p hp => h p (List.mem_cons_of_mem (a, b) hp)
      have hba : (n == a) = false := beq_eq_false_iff_ne.mpr (Ne.symm ha)
      simp [List.lookup, hba, ih ht]

/-- Filtering out a key removes exactly a trailing entry with that key when
all other keys differ from it. -/
theorem filter_ne_append {β : Type} (n : Nat) (l1 : List (Nat × β)) (b : β)
    (h : ∀ p ∈ l1, p.1 ≠ n) :
    (l1 ++ [(n, b)]).filter (fun p => p.1 ≠ n) = l1 := by
  have h1 : l1.filter (fun p => p.1 ≠ n) = l1 := by
    rw [List.filter_eq_self]
    intro p hp
    simpa using h p hp
  rw [List.filter_append, h1]
  simp

/-- The registry's initial state is well-formed. -/
theorem TestingHooks.initial_wf : TestingHooks.initial.Wf := by
  intro p hp
  simp [TestingHooks.initial] at hp

/-- Full characterization of the capture façade on a well-formed registry
state: the fresh subscriber is registered, receives every record published
during the callback (as does every other registered subscriber, since
delivery is broadcast), and is unregistered before the façade returns; the
result pairs the accumulated translated records with the callback's
outcome. -/
theorem capture_spec {ε α : Type} (s : TestingHooks) (hwf : s.Wf)
    (events : List ExistenceFilterMismatchInfoInternal) (outcome : Except ε α) :
    captureExistenceFilterMismatches (events, outcome) s
      = (⟨s.nextId + 1,
          s.subs.map (fun p =>
            (p.1, p.2 ++ events.map createExistenceFilterMismatchInfoFrom))⟩,
         captureOutcome (events.map createExistenceFilterMismatchInfoFrom) outcome) := by
  have hne : ∀ p ∈ s.subs.map (fun p =>
      (p.1, p.2 ++ events.map createExistenceFilterMismatchInfoFrom)),
      p.1 ≠ s.nextId := by
    intro p hp
    obtain ⟨q, hq, rfl⟩ := List.mem_map.mp hp
    exact Nat.ne_of_lt (hwf q hq)
  unfold captureExistenceFilterMismatches
  simp only [onExistenceFilterMismatch, notify_foldl, List.map_append,
    List.map_cons, List.map_nil, List.nil_append]
  congr 1
  · simp only [unregister]
    congr 1
    exact filter_ne_append s.nextId _ _ hne
  · congr 1
    rw [lookup_append_of_forall_ne s.nextId _ _ hne]
    simp [List.lookup]

/-- C1: when the captured callback succeeds with result `r`, the façade
returns the pair of the translated public records accumulated during the
callback's execution and `r` unchanged; in particular, when no mismatch is
published the records are the empty list (never a missing value). -/
theorem capture_success_returns_records_and_result {ε α : Type}
    (s : TestingHooks) (hwf : s.Wf)
    (events : List ExistenceFilterMismatchInfoInternal) (r : α) :
    (captureExistenceFilterMismatches (events, (Except.ok r : Except ε α)) s).2
      = Except.ok (events.map createExistenceFilterMismatchInfoFrom, r) := by
  rw [capture_spec s hwf events (Except.ok r)]
  rfl

/-- Witness for C1, spec scenario P7: a capture whose callback publishes
nothing and returns `42` yields the empty record list and `42` unchanged. -/
theorem capture_success_witness :
    (captureExistenceFilterMismatches
        (([] : List ExistenceFilterMismatchInfoInternal),
         (Except.ok 42 : Except Unit Nat)) TestingHooks.initial).2
      = Except.ok ([], 42) :=
  @capture_success_returns_records_and_result Unit Nat TestingHooks.initial
    TestingHooks.initial_wf [] 42

/-- C2: when the captured callback fails with error `e`, the façade
unregisters the temporary subscriber it registered (the final subscriber
handles are exactly the ones present before the call) and propagates exactly
the original error `e`, unchanged and unwrapped, returning no accumulated
records to the caller. -/
theorem capture_failure_releases_and_propagates {ε α : Type}
    (s : TestingHooks) (hwf : s.Wf)
    (events : List ExistenceFilterMismatchInfoInternal) (e : ε) :
    (captureExistenceFilterMismatches (events, (Except.error e : Except ε α)) s).2
      = Except.error e
    ∧ (captureExistenceFilterMismatches (events, (Except.error e : Except ε α)) s).1.subs.map
          Prod.fst
      = s.subs.map Prod.fst := by
  rw [capture_spec s hwf events (Except.error e)]
  exact ⟨rfl, by simp [captureOutcome, List.map_map]⟩

/-- Witness for C2: a capture whose callback publishes one record and then
fails with `error 7` propagates `error 7` itself, and the registry's
subscriber list is left as before the call (here, empty). -/
theorem capture_failure_witness :
    (captureExistenceFilterMismatches
        ([noBloomInfo], (Except.error 7 : Except Nat Nat)) TestingHooks.initial).2
      = Except.error 7
    ∧ (captureExistenceFilterMismatches
        ([noBloomInfo], (Except.error 7 : Except Nat Nat)) TestingHooks.initial).1.subs.map
          Prod.fst
      = [] :=
  @capture_failure_releases_and_propagates Nat Nat TestingHooks.initial
    TestingHooks.initial_wf [noBloomInfo] 7

/-- C9: invoking an unregister handle a second time is a no-op equivalent to
invoking it once: the registry's subscriber list is unchanged by the second
invocation, and the operation is a total function, so it cannot raise. -/
theorem unregister_idempotent (id : Nat) (s : TestingHooks) :
    unregister id (unregister id s) = unregister id s := by
  simp [unregister, List.filter_filter]

/-- Running a trace split into two parts runs the first part and then the
second. -/
theorem runTrace_append {ε α : Type} (l1 l2 : List (TraceEvent ε α))
    (st : ExecState ε α) :
    runTrace (l1 ++ l2) st = runTrace l2 (runTrace l1 st) := by
  simp [runTrace, List.foldl_append]

/-- Running a trace of publish events only broadcasts through the registry
and records no finished capture. -/
theorem runTrace_pubs {ε α : Type} (l : List ExistenceFilterMismatchInfoInternal)
    (st : ExecState ε α) :
    runTrace (l.map TraceEvent.pub) st
      = ⟨l.foldl (fun h info => notifyOnExistenceFilterMismatch info h) st.hooks,
         st.finished⟩ := by
  induction l generalizing st with
  | nil => rfl
  | cons info t ih =>
      rw [List.map_cons]
      show runTrace (t.map TraceEvent.pub) (stepEvent (TraceEvent.pub info) st) = _
      rw [ih]
      rfl

/-- C8: the capture window is exactly the dynamic extent of the callback: in
a trace where the capture begins, the callback publishes the records
`during` (including transitively, from nested sub-operations), the callback
finishes with `outcome`, and detached background actions publish `after`,
the finished capture holds exactly the translations of `during` — every
record published during the callback and none published after it. -/
theorem capture_window_is_dynamic_extent {ε α : Type} (cid : Nat)
    (during after : List ExistenceFilterMismatchInfoInternal)
    (outcome : Except ε α) :
    runTrace ([TraceEvent.beginC cid] ++ during.map TraceEvent.pub
        ++ [TraceEvent.endC cid outcome] ++ after.map TraceEvent.pub)
      ⟨TestingHooks.initial, []⟩
      = ⟨⟨0, []⟩,
         [(cid, captureOutcome (during.map createExistenceFilterMismatchInfoFrom)
             outcome)]⟩ := by
  have h2 : runTrace (during.map TraceEvent.pub)
      (⟨⟨0, [(cid, [])]⟩, []⟩ : ExecState ε α)
      = ⟨⟨0, [(cid, during.map createExistenceFilterMismatchInfoFrom)]⟩, []⟩ := by
    rw [runTrace_pubs]
    simp [notify_foldl]
  have h3 : runTrace [TraceEvent.endC cid outcome]
      (⟨⟨0, [(cid, during.map createExistenceFilterMismatchInfoFrom)]⟩, []⟩ :
        ExecState ε α)
      = ⟨⟨0, []⟩,
         [(cid, captureOutcome (during.map createExistenceFilterMismatchInfoFrom)
             outcome)]⟩ := by
    simp [runTrace, stepEvent, unregister, List.lookup]
  have h4 : runTrace (after.map TraceEvent.pub)
      (⟨⟨0, []⟩,
        [(cid, captureOutcome (during.map createExistenceFilterMismatchInfoFrom)
            outcome)]⟩ : ExecState ε α)
      = ⟨⟨0, []⟩,
         [(cid, captureOutcome (during.map createExistenceFilterMismatchInfoFrom)
             outcome)]⟩ := by
    rw [runTrace_pubs]
    simp [notify_foldl]
  rw [runTrace_append, runTrace_append, runTrace_append]
  rw [show runTrace [TraceEvent.beginC cid]
      (⟨TestingHooks.initial, []⟩ : ExecState ε α) = ⟨⟨0, [(cid, [])]⟩, []⟩ from rfl]
  rw [h2, h3, h4]

/-- Concrete interleaving of two overlapping captures in which only the
first capture's callback publishes: capture 0 begins, capture 1 begins, the
record is published during capture 0's callback, then both captures end. -/
def overlappingTrace : List (TraceEvent Unit Nat) :=
  [TraceEvent.beginC 0, TraceEvent.beginC 1, TraceEvent.pub noBloomInfo,
   TraceEvent.endC 0 (Except.ok 1), TraceEvent.endC 1 (Except.ok 2)]

/-- Counterexample to C5 as stated: in the overlapping interleaving where
only capture A's callback publishes while capture B's subscription is also
active, delivery is broadcast to every registered subscriber, so B's returned
sequence has length 1, not 0 — both finished captures report one record. -/
theorem concurrent_capture_broadcast_counterexample :
    ((runTrace overlappingTrace ⟨TestingHooks.initial, []⟩).finished.map
        (fun p => (p.1, capturedCount p.2))) = [(0, 1), (1, 1)] := by
  rfl

/-- C5 amended: each capture invocation uses its own accumulator entry and
its own subscription, and when the single publish triggered by capture A's
callback occurs while capture B's subscription is not registered, A's
returned sequence has length 1 and B's has length 0; when B's subscription
is active at publish time, delivery is broadcast and B receives the record
too. -/
theorem concurrent_capture_isolation_amended {ε α : Type}
    (info : ExistenceFilterMismatchInfoInternal) (a b : α) :
    runTrace [TraceEvent.beginC 0, TraceEvent.pub info,
        TraceEvent.endC 0 (Except.ok a : Except ε α),
        TraceEvent.beginC 1, TraceEvent.endC 1 (Except.ok b)]
      ⟨TestingHooks.initial, []⟩
      = ⟨⟨0, []⟩,
         [(0, Except.ok ([createExistenceFilterMismatchInfoFrom info], a)),
          (1, Except.ok ([], b))]⟩ := by
  rfl
